import Mathlib

/-!
Verification of `examples/vulkan-hello/src/main.cc` (quickvulkan1.1).

The program is a linear diagnostic: query the loader version (optional entry
point), create an instance, enumerate physical devices (two-call convention),
print one line per device, destroy the instance.  We embed it as a pure
function of the driver's responses, recording the process exit code, the
lines printed to stdout/stderr (one list element per printed line, without
the trailing newline), the sequence of driver-API calls made, and whether
the device buffer was allocated/read.
-/

namespace QuickVulkan

/-- `VK_VERSION_MAJOR(v)`: `((uint32_t)(v)) >> 22`. -/
def VK_VERSION_MAJOR (v : Nat) : Nat := v >>> 22

/-- `VK_VERSION_MINOR(v)`: `(((uint32_t)(v)) >> 12) & 0x3FF`. -/
def VK_VERSION_MINOR (v : Nat) : Nat := (v >>> 12) &&& 0x3FF

/-- `VK_VERSION_PATCH(v)`: `((uint32_t)(v)) & 0xFFF`. -/
def VK_VERSION_PATCH (v : Nat) : Nat := v &&& 0xFFF

/-- `VK_MAKE_VERSION(major, minor, patch)`. -/
def VK_MAKE_VERSION (major minor patch : Nat) : Nat :=
  (major <<< 22) ||| (minor <<< 12) ||| patch

def VK_API_VERSION_1_0 : Nat := VK_MAKE_VERSION 1 0 0

def VK_API_VERSION_1_1 : Nat := VK_MAKE_VERSION 1 1 0

/-- `ApiVersionToStr`: `snprintf(buf, 64, "%u.%u.%u", MAJOR(v), MINOR(v), PATCH(v))`.
The argument has C type `uint32_t`, hence the `% 2^32` truncation of the
incoming value.  The formatted text is at most `"1023.1023.4095"` (14
characters), so the 64-byte buffer never truncates.  This is the pure value
produced by one call; the shared static buffer is modelled separately by
`mainRunBuf`. -/
def ApiVersionToStr (v : Nat) : String :=
  let v := v % 2 ^ 32
  toString (VK_VERSION_MAJOR v) ++ "." ++ toString (VK_VERSION_MINOR v) ++ "." ++
    toString (VK_VERSION_PATCH v)

/-- The fields of `VkPhysicalDeviceProperties` that the program reads.
Numeric fields are `uint32_t` values. -/
structure VkPhysicalDeviceProperties where
  deviceName : String
  apiVersion : Nat
  driverVersion : Nat
  deviceID : Nat
  deriving DecidableEq, Repr

instance : Inhabited VkPhysicalDeviceProperties := ⟨⟨"", 0, 0, 0⟩⟩

/-- The driver-API entry points the program can invoke, in call order. -/
inductive VkCall where
  | getInstanceProcAddr
  | enumerateInstanceVersion
  | createInstance
  | enumeratePhysicalDevices
  | getPhysicalDeviceProperties
  | destroyInstance
  deriving DecidableEq, Repr

/-- One run's worth of driver responses, i.e. the environment of the program.
`enumerateInstanceVersionFn = some v` means `vkGetInstanceProcAddr` resolves
`vkEnumerateInstanceVersion` and that call writes `v` (a `uint32_t`) through
its out-parameter; `none` means the entry point is unresolved.
`enumStatus1`/`enumCount` are the status and written count of the first
(count-retrieving) `vkEnumeratePhysicalDevices` call; `enumStatus2` is the
status of the second (buffer-filling) call and `deviceProps` are the
properties of the devices it places in the buffer (composed with
`vkGetPhysicalDeviceProperties`, which cannot fail).  `VK_SUCCESS = 0`. -/
structure Driver where
  enumerateInstanceVersionFn : Option Nat
  createInstanceStatus : Int
  enumStatus1 : Int
  enumCount : Nat
  enumStatus2 : Int
  deviceProps : List VkPhysicalDeviceProperties

/-- Observable outcome of one run of `main`. -/
structure RunResult where
  exitCode : Nat
  stdout : List String
  stderr : List String
  trace : List VkCall
  bufferAllocated : Bool
  bufferReads : Nat
  deriving DecidableEq, Repr

/-- Lines 14–22 of `main.cc`: `loader_version = VK_API_VERSION_1_0`, then the
optional `vkEnumerateInstanceVersion` overwrites it when resolved.  This is
the spec's `queryLoaderVersion` operation. -/
def queryLoaderVersion (d : Driver) : Nat :=
  match d.enumerateInstanceVersionFn with
  | none => VK_API_VERSION_1_0
  | some v => v % 2 ^ 32

/-- `%x`: lowercase hexadecimal, no padding (`Nat.toDigits 16` uses the
digits `0`–`9`, `a`–`f`). -/
def hexStr (n : Nat) : String := String.mk (Nat.toDigits 16 n)

/-- `%04x`: lowercase hexadecimal, zero-padded on the left to at least four
digits. -/
def hex04 (n : Nat) : String :=
  let s := hexStr n
  String.mk (List.replicate (4 - s.length) '0') ++ s

/-- The per-device line of lines 65–67:
`printf("  - %s | api %s | driver 0x%x | deviceID 0x%04x\n", ...)` with the
`uint32_t` fields truncated to 32 bits. -/
def deviceLine (p : VkPhysicalDeviceProperties) : String :=
  "  - " ++ p.deviceName ++ " | api " ++ ApiVersionToStr p.apiVersion ++
    " | driver 0x" ++ hexStr (p.driverVersion % 2 ^ 32) ++
    " | deviceID 0x" ++ hex04 (p.deviceID % 2 ^ 32)

/-- The stderr line of line 42: `"[vk] vkCreateInstance failed: %d"`. -/
def createFailMsg (res : Int) : String :=
  "[vk] vkCreateInstance failed: " ++ toString res

/-- The stderr line of lines 49–50:
`"[vk] No physical devices found (res=%d, count=%u)"`. -/
def noDevicesMsg (res : Int) (count : Nat) : String :=
  "[vk] No physical devices found (res=" ++ toString res ++ ", count=" ++
    toString count ++ ")"

/-- The stdout line of line 24: `"[vk] Loader supports: Vulkan %s"`. -/
def loaderMsg (v : Nat) : String :=
  "[vk] Loader supports: Vulkan " ++ ApiVersionToStr v

/-- The stdout line of line 60: `"[vk] Found %u physical device(s)"`. -/
def foundMsg (count : Nat) : String :=
  "[vk] Found " ++ toString count ++ " physical device(s)"

/-- `main` of `main.cc`, as a function of the driver's responses.  The
`VkApplicationInfo` / `VkInstanceCreateInfo` metadata is cosmetic (never read
back by the program) and is not represented. -/
def mainRun (d : Driver) : RunResult :=
  -- lines 14–24: loader version query and banner
  let loaderVersion := queryLoaderVersion d
  let trace0 :=
    VkCall.getInstanceProcAddr ::
      (match d.enumerateInstanceVersionFn with
       | none => []
       | some _ => [VkCall.enumerateInstanceVersion])
  let out0 := [loaderMsg loaderVersion]
  -- lines 39–44: vkCreateInstance and its error check
  let trace1 := trace0 ++ [VkCall.createInstance]
  if d.createInstanceStatus ≠ 0 then
    { exitCode := 1, stdout := out0, stderr := [createFailMsg d.createInstanceStatus],
      trace := trace1, bufferAllocated := false, bufferReads := 0 }
  else
    -- lines 46–53: first enumeration call (count retrieval) and its check
    let count := d.enumCount % 2 ^ 32
    let trace2 := trace1 ++ [VkCall.enumeratePhysicalDevices]
    if d.enumStatus1 ≠ 0 ∨ count = 0 then
      { exitCode := 1, stdout := out0, stderr := [noDevicesMsg d.enumStatus1 count],
        trace := trace2 ++ [VkCall.destroyInstance],
        bufferAllocated := false, bufferReads := 0 }
    else
      -- lines 55–57: buffer allocation and second enumeration call
      -- (its VkResult is discarded by the program)
      let trace3 := trace2 ++ [VkCall.enumeratePhysicalDevices]
      -- lines 60–68: count banner and the per-device loop; iteration i reads
      -- physical_devices[i] and queries its properties
      let devLines := (List.range count).map (fun i => deviceLine (d.deviceProps.getD i default))
      { exitCode := 0,
        stdout := out0 ++ [foundMsg count] ++ devLines ++ ["[vk] Sanity OK."],
        stderr := [],
        trace := trace3 ++ List.replicate count VkCall.getPhysicalDeviceProperties ++
          [VkCall.destroyInstance],
        bufferAllocated := true, bufferReads := count }

/-- The loop of lines 62–68 with the static buffer of `ApiVersionToStr`
threaded explicitly: each iteration overwrites the buffer (`snprintf`) and
the `printf` then reads the buffer's current contents.  Returns the printed
lines and the final buffer contents. -/
def describeLoopBuf : List VkPhysicalDeviceProperties → String → List String × String
  | [], buf => ([], buf)
  | p :: rest, _buf₀ =>
    -- ApiVersionToStr overwrites the shared buffer...
    let buf₁ := ApiVersionToStr p.apiVersion
    -- ...and printf consumes the buffer before the next call occurs
    let line := "  - " ++ p.deviceName ++ " | api " ++ buf₁ ++
      " | driver 0x" ++ hexStr (p.driverVersion % 2 ^ 32) ++
      " | deviceID 0x" ++ hex04 (p.deviceID % 2 ^ 32)
    let (lines, buf₂) := describeLoopBuf rest buf₁
    (line :: lines, buf₂)

/-- `main` with the single shared static buffer of `ApiVersionToStr` modelled
explicitly: every call site stores into the buffer and the enclosing print
reads the buffer at print time.  Agreeing with `mainRun` shows the aliasing
is benign in this program. -/
def mainRunBuf (d : Driver) : RunResult :=
  let loaderVersion := queryLoaderVersion d
  let trace0 :=
    VkCall.getInstanceProcAddr ::
      (match d.enumerateInstanceVersionFn with
       | none => []
       | some _ => [VkCall.enumerateInstanceVersion])
  -- line 24: snprintf into the static buffer, printf reads it back
  let buf₁ := ApiVersionToStr loaderVersion
  let out0 := ["[vk] Loader supports: Vulkan " ++ buf₁]
  let trace1 := trace0 ++ [VkCall.createInstance]
  if d.createInstanceStatus ≠ 0 then
    { exitCode := 1, stdout := out0, stderr := [createFailMsg d.createInstanceStatus],
      trace := trace1, bufferAllocated := false, bufferReads := 0 }
  else
    let count := d.enumCount % 2 ^ 32
    let trace2 := trace1 ++ [VkCall.enumeratePhysicalDevices]
    if d.enumStatus1 ≠ 0 ∨ count = 0 then
      { exitCode := 1, stdout := out0, stderr := [noDevicesMsg d.enumStatus1 count],
        trace := trace2 ++ [VkCall.destroyInstance],
        bufferAllocated := false, bufferReads := 0 }
    else
      let trace3 := trace2 ++ [VkCall.enumeratePhysicalDevices]
      let devLines :=
        (describeLoopBuf ((List.range count).map (fun i => d.deviceProps.getD i default)) buf₁).1
      { exitCode := 0,
        stdout := out0 ++ [foundMsg count] ++ devLines ++ ["[vk] Sanity OK."],
        stderr := [],
        trace := trace3 ++ List.replicate count VkCall.getPhysicalDeviceProperties ++
          [VkCall.destroyInstance],
        bufferAllocated := true, bufferReads := count }

/-- No `createInstance` call occurs anywhere after a `destroyInstance` call. -/
def noCreateAfterDestroy : List VkCall → Bool
  | [] => true
  | VkCall.destroyInstance :: rest =>
    rest.all (fun c => c ≠ VkCall.createInstance) && noCreateAfterDestroy rest
  | _ :: rest => noCreateAfterDestroy rest

/-- A printed line is a device line when it starts with `"  - "` (every
other line of this program starts with `"[vk]"`). -/
def isDeviceLine (s : String) : Bool :=
  decide (s.data.take 4 = "  - ".data)

/-- The device lines of a run. -/
def deviceLinesOf (r : RunResult) : List String :=
  r.stdout.filter isDeviceLine

/-! ### Helper lemmas -/

lemma isDeviceLine_deviceLine (p : VkPhysicalDeviceProperties) :
    isDeviceLine (deviceLine p) = true := by
  simp only [isDeviceLine, deviceLine, String.data_append, List.append_assoc,
    decide_eq_true_eq]
  rw [List.take_left' (by decide : ("  - " : String).data.length = 4)]

lemma isDeviceLine_loaderMsg (v : Nat) : isDeviceLine (loaderMsg v) = false := by
  simp only [isDeviceLine, loaderMsg, String.data_append, decide_eq_false_iff_not]
  rw [List.take_append_of_le_length (by decide)]
  decide

lemma isDeviceLine_foundMsg (n : Nat) : isDeviceLine (foundMsg n) = false := by
  simp only [isDeviceLine, foundMsg, String.data_append, List.append_assoc,
    decide_eq_false_iff_not]
  rw [List.take_append_of_le_length (by decide)]
  decide

lemma range_map_getD {α β : Type} (f : α → β) (dflt : α) :
    ∀ l : List α, (List.range l.length).map (fun i => f (l.getD i dflt)) = l.map f := by
  intro l
  induction l with
  | nil => rfl
  | cons a l ih =>
    rw [List.length_cons, List.range_succ_eq_map, List.map_cons, List.map_map,
      List.map_cons]
    refine congrArg (_ :: ·) ?_
    rw [← ih]
    exact List.map_congr_left fun i _ => rfl

lemma noCreateAfterDestroy_of_not_mem :
    ∀ {l : List VkCall}, VkCall.destroyInstance ∉ l → noCreateAfterDestroy l = true := by
  intro l h
  induction l with
  | nil => rfl
  | cons a l ih => cases a <;> simp_all [noCreateAfterDestroy]

lemma noCreateAfterDestroy_concat {l : List VkCall} (h : VkCall.destroyInstance ∉ l) :
    noCreateAfterDestroy (l ++ [VkCall.destroyInstance]) = true := by
  induction l with
  | nil => simp [noCreateAfterDestroy]
  | cons a l ih => cases a <;> simp_all [noCreateAfterDestroy]

lemma describeLoopBuf_fst (buf : String) :
    ∀ l : List VkPhysicalDeviceProperties, (describeLoopBuf l buf).1 = l.map deviceLine := by
  intro l
  induction l generalizing buf with
  | nil => rfl
  | cons p rest ih =>
    simp only [describeLoopBuf, List.map_cons]
    rw [← ih (ApiVersionToStr p.apiVersion)]
    rfl

/-- The success-path device listing: one `deviceLine` per counted index. -/
lemma deviceLinesOf_mainRun_success (d : Driver) (hc : d.createInstanceStatus = 0)
    (hs : d.enumStatus1 = 0) (hn : d.enumCount % 2 ^ 32 ≠ 0) :
    deviceLinesOf (mainRun d) =
      (List.range (d.enumCount % 2 ^ 32)).map
        (fun i => deviceLine (d.deviceProps.getD i default)) := by
  have hvk : isDeviceLine "[vk] Sanity OK." = false := by decide
  have hdev : List.filter isDeviceLine
      ((List.range (d.enumCount % 2 ^ 32)).map
        (fun i => deviceLine (d.deviceProps.getD i default)))
      = (List.range (d.enumCount % 2 ^ 32)).map
        (fun i => deviceLine (d.deviceProps.getD i default)) := by
    refine List.filter_eq_self.mpr fun a ha => ?_
    rcases List.mem_map.mp ha with ⟨i, _, rfl⟩
    exact isDeviceLine_deviceLine _
  unfold deviceLinesOf
  simp only [mainRun]
  rw [if_neg (by simp [hc]), if_neg (not_or.mpr ⟨by simp [hs], hn⟩)]
  simp [List.filter_append, List.filter_cons, isDeviceLine_loaderMsg, isDeviceLine_foundMsg,
    hvk, hdev]
  intro a _
  exact isDeviceLine_deviceLine _

/-- On both failure paths stdout is just the loader banner, so there are no
device lines. -/
lemma deviceLinesOf_mainRun_fail (d : Driver)
    (h : ¬(d.createInstanceStatus = 0 ∧ d.enumStatus1 = 0 ∧ d.enumCount % 2 ^ 32 ≠ 0)) :
    deviceLinesOf (mainRun d) = [] := by
  unfold deviceLinesOf
  simp only [mainRun]
  by_cases hc : d.createInstanceStatus = 0
  · push_neg at h
    have hcond : d.enumStatus1 ≠ 0 ∨ d.enumCount % 2 ^ 32 = 0 := by
      by_cases hs : d.enumStatus1 = 0
      · exact Or.inr (h hc hs)
      · exact Or.inl hs
    rw [if_neg (by simp [hc]), if_pos hcond]
    simp [isDeviceLine_loaderMsg]
  · rw [if_pos hc]
    simp [isDeviceLine_loaderMsg]

/-- The exit code as a function of the three decisive driver responses. -/
lemma mainRun_exitCode (d : Driver) :
    (mainRun d).exitCode =
      if d.createInstanceStatus = 0 ∧ d.enumStatus1 = 0 ∧ d.enumCount % 2 ^ 32 ≠ 0 then 0
      else 1 := by
  simp only [mainRun]
  split_ifs <;> simp_all

/-! ### Claim theorems -/

/-- C1: the process exit code is 0 exactly when instance creation succeeded
and the first device enumeration returned `VK_SUCCESS` with a non-zero
device count, and 1 exactly otherwise (creation failed, or enumeration
returned a non-success status or zero devices). -/
theorem exit_code_zero_iff_devices_listed (d : Driver) :
    ((mainRun d).exitCode = 0 ↔
      d.createInstanceStatus = 0 ∧ d.enumStatus1 = 0 ∧ d.enumCount % 2 ^ 32 ≠ 0) ∧
    ((mainRun d).exitCode = 1 ↔
      ¬(d.createInstanceStatus = 0 ∧ d.enumStatus1 = 0 ∧ d.enumCount % 2 ^ 32 ≠ 0)) := by
  simp only [mainRun]
  split_ifs with h1 h2 <;> simp <;> tauto

/-- C1 witness: a run with one device exits 0. -/
theorem exit_code_zero_iff_devices_listed_w :
    (mainRun ⟨none, 0, 0, 1, 0, [⟨"gpu", 4198400, 1, 1⟩]⟩).exitCode = 0 :=
  (exit_code_zero_iff_devices_listed ⟨none, 0, 0, 1, 0, [⟨"gpu", 4198400, 1, 1⟩]⟩).1.mpr
    (by refine ⟨rfl, rfl, ?_⟩; decide)

/-- C2: on every path `vkCreateInstance` is called exactly once; when it
returns success, `vkDestroyInstance` is called exactly once before exit (on
the success path and on every failure path); when it fails, no destruction
occurs; and no path re-creates an instance after destruction. -/
theorem context_created_once_destroyed_once (d : Driver) :
    (mainRun d).trace.count VkCall.createInstance = 1 ∧
    (d.createInstanceStatus = 0 → (mainRun d).trace.count VkCall.destroyInstance = 1) ∧
    (d.createInstanceStatus ≠ 0 → (mainRun d).trace.count VkCall.destroyInstance = 0) ∧
    noCreateAfterDestroy (mainRun d).trace = true := by
  refine ⟨?_, ?_, ?_, ?_⟩
  · cases hfn : d.enumerateInstanceVersionFn <;> simp only [mainRun, hfn] <;>
      split_ifs <;>
      simp [List.count_append, List.count_cons, List.count_nil, List.count_replicate]
  · intro hc
    cases hfn : d.enumerateInstanceVersionFn <;> simp only [mainRun, hfn] <;>
      split_ifs <;>
      simp_all [List.count_append, List.count_cons, List.count_nil, List.count_replicate]
  · intro hc
    cases hfn : d.enumerateInstanceVersionFn <;> simp only [mainRun, hfn] <;>
      split_ifs <;>
      simp_all [List.count_append, List.count_cons, List.count_nil, List.count_replicate]
  · cases hfn : d.enumerateInstanceVersionFn <;> simp only [mainRun, hfn] <;> split_ifs
    · exact noCreateAfterDestroy_of_not_mem (by simp)
    · exact noCreateAfterDestroy_concat (by simp)
    · exact noCreateAfterDestroy_concat (by simp [List.mem_append, List.mem_replicate])
    · exact noCreateAfterDestroy_of_not_mem (by simp)
    · exact noCreateAfterDestroy_concat (by simp)
    · exact noCreateAfterDestroy_concat (by simp [List.mem_append, List.mem_replicate])

/-- C2 witness: the zero-device run creates once, destroys once, and never
re-creates after destroying. -/
theorem context_created_once_destroyed_once_w :
    (mainRun ⟨none, 0, 0, 0, 0, []⟩).trace.count VkCall.createInstance = 1 ∧
    ((0 : Int) = 0 → (mainRun ⟨none, 0, 0, 0, 0, []⟩).trace.count VkCall.destroyInstance = 1) ∧
    ((0 : Int) ≠ 0 → (mainRun ⟨none, 0, 0, 0, 0, []⟩).trace.count VkCall.destroyInstance = 0) ∧
    noCreateAfterDestroy (mainRun ⟨none, 0, 0, 0, 0, []⟩).trace = true :=
  context_created_once_destroyed_once ⟨none, 0, 0, 0, 0, []⟩

/-- C3: a successful first enumeration call that writes `count = 0` makes the
program exit 1, destroy the instance before exiting (the destruction is the
last driver call), and print a stderr diagnostic carrying the count 0. -/
theorem zero_devices_exit_one_destroy (d : Driver) (hc : d.createInstanceStatus = 0)
    (hs : d.enumStatus1 = 0) (h0 : d.enumCount % 2 ^ 32 = 0) :
    (mainRun d).exitCode = 1 ∧
    (mainRun d).trace.count VkCall.destroyInstance = 1 ∧
    (mainRun d).trace.getLast? = some VkCall.destroyInstance ∧
    (mainRun d).stderr = ["[vk] No physical devices found (res=0, count=0)"] := by
  simp only [mainRun]
  rw [if_neg (by simp [hc]), if_pos (Or.inr h0)]
  refine ⟨rfl, ?_, ?_, ?_⟩
  · cases hfn : d.enumerateInstanceVersionFn <;>
      simp [hfn, List.count_append, List.count_cons, List.count_nil]
  · exact List.getLast?_concat _
  · show [noDevicesMsg d.enumStatus1 (d.enumCount % 2 ^ 32)] = _
    rw [hs, h0]
    decide

/-- C3 witness: concrete zero-device run. -/
theorem zero_devices_exit_one_destroy_w :
    (mainRun ⟨none, 0, 0, 0, 0, []⟩).exitCode = 1 ∧
    (mainRun ⟨none, 0, 0, 0, 0, []⟩).trace.count VkCall.destroyInstance = 1 ∧
    (mainRun ⟨none, 0, 0, 0, 0, []⟩).trace.getLast? = some VkCall.destroyInstance ∧
    (mainRun ⟨none, 0, 0, 0, 0, []⟩).stderr =
      ["[vk] No physical devices found (res=0, count=0)"] :=
  zero_devices_exit_one_destroy ⟨none, 0, 0, 0, 0, []⟩ rfl rfl (by decide)

/-- C4: when `vkCreateInstance` returns a non-success status the program
prints that raw status to stderr and exits 1, never calling
`vkEnumeratePhysicalDevices` or `vkDestroyInstance`. -/
theorem create_fail_no_enum_no_destroy (d : Driver) (h : d.createInstanceStatus ≠ 0) :
    (mainRun d).exitCode = 1 ∧
    (mainRun d).stderr = ["[vk] vkCreateInstance failed: " ++ toString d.createInstanceStatus] ∧
    VkCall.enumeratePhysicalDevices ∉ (mainRun d).trace ∧
    VkCall.destroyInstance ∉ (mainRun d).trace := by
  simp only [mainRun]
  rw [if_pos h]
  refine ⟨rfl, rfl, ?_, ?_⟩ <;>
    cases hfn : d.enumerateInstanceVersionFn <;> simp [hfn]

/-- C4 witness: a creation failure with status `-3` puts `-3` on stderr. -/
theorem create_fail_no_enum_no_destroy_w :
    (mainRun ⟨none, -3, 0, 0, 0, []⟩).exitCode = 1 ∧
    (mainRun ⟨none, -3, 0, 0, 0, []⟩).stderr = ["[vk] vkCreateInstance failed: " ++
      toString (-3 : Int)] ∧
    VkCall.enumeratePhysicalDevices ∉ (mainRun ⟨none, -3, 0, 0, 0, []⟩).trace ∧
    VkCall.destroyInstance ∉ (mainRun ⟨none, -3, 0, 0, 0, []⟩).trace :=
  create_fail_no_enum_no_destroy ⟨none, -3, 0, 0, 0, []⟩ (by decide)

/-- C5: a non-success status from the first (count-retrieving) enumeration
call makes the program exit 1 without allocating the device buffer, without
reading any element of it, and without making the second enumeration call. -/
theorem enum_fail_no_buffer_access (d : Driver) (hc : d.createInstanceStatus = 0)
    (hs : d.enumStatus1 ≠ 0) :
    (mainRun d).exitCode = 1 ∧
    (mainRun d).bufferAllocated = false ∧
    (mainRun d).bufferReads = 0 ∧
    (mainRun d).trace.count VkCall.enumeratePhysicalDevices = 1 := by
  simp only [mainRun]
  rw [if_neg (by simp [hc]), if_pos (Or.inl hs)]
  refine ⟨rfl, rfl, rfl, ?_⟩
  cases hfn : d.enumerateInstanceVersionFn <;>
    simp [hfn, List.count_append, List.count_cons, List.count_nil]

/-- C5 witness: enumeration status `-4` with a junk count. -/
theorem enum_fail_no_buffer_access_w :
    (mainRun ⟨none, 0, -4, 7, 0, []⟩).exitCode = 1 ∧
    (mainRun ⟨none, 0, -4, 7, 0, []⟩).bufferAllocated = false ∧
    (mainRun ⟨none, 0, -4, 7, 0, []⟩).bufferReads = 0 ∧
    (mainRun ⟨none, 0, -4, 7, 0, []⟩).trace.count VkCall.enumeratePhysicalDevices = 1 :=
  enum_fail_no_buffer_access ⟨none, 0, -4, 7, 0, []⟩ rfl (by decide)

/-- C6: `queryLoaderVersion` is total (never fails): with the optional entry
point unresolved it returns exactly the baseline `VK_API_VERSION_1_0`; and —
entry point absent or present — the returned version is at least the
baseline, granted the Vulkan guarantee that a resolved
`vkEnumerateInstanceVersion` on a supported driver reports a version
≥ 1.0.0. -/
theorem query_loader_version_ge_baseline (d : Driver)
    (h : ∀ v, d.enumerateInstanceVersionFn = some v → VK_API_VERSION_1_0 ≤ v % 2 ^ 32) :
    (d.enumerateInstanceVersionFn = none → queryLoaderVersion d = VK_API_VERSION_1_0) ∧
    VK_API_VERSION_1_0 ≤ queryLoaderVersion d := by
  cases hfn : d.enumerateInstanceVersionFn with
  | none =>
    refine ⟨fun _ => ?_, ?_⟩ <;> simp [queryLoaderVersion, hfn]
  | some v =>
    refine ⟨fun hnone => (Option.some_ne_none v hnone).elim, ?_⟩
    have hv := h v hfn
    simp only [queryLoaderVersion, hfn]
    exact hv

/-- C6 witness: a 1.1-reporting loader yields a version ≥ baseline. -/
theorem query_loader_version_ge_baseline_w :
    ((⟨some 4198400, 0, 0, 1, 0, []⟩ : Driver).enumerateInstanceVersionFn = none →
      queryLoaderVersion ⟨some 4198400, 0, 0, 1, 0, []⟩ = VK_API_VERSION_1_0) ∧
    VK_API_VERSION_1_0 ≤ queryLoaderVersion ⟨some 4198400, 0, 0, 1, 0, []⟩ :=
  query_loader_version_ge_baseline _ (fun v hv => by
    injection hv with h
    subst h
    decide)

/-- C7: with creation succeeding and the first enumeration reporting N > 0
devices with success status (describe calls cannot fail), stdout carries
exactly N device lines — the lines starting `"  - "` — each being
`deviceLine` of the corresponding buffer entry, i.e.
`  - <name> | api <major.minor.patch> | driver 0x<hex> | deviceID 0x<4-hex-digit>`,
and the process exits 0. -/
theorem success_lists_each_device (d : Driver) (hc : d.createInstanceStatus = 0)
    (hs : d.enumStatus1 = 0) (hn : d.enumCount % 2 ^ 32 ≠ 0) :
    deviceLinesOf (mainRun d) =
      (List.range (d.enumCount % 2 ^ 32)).map
        (fun i => deviceLine (d.deviceProps.getD i default)) ∧
    (deviceLinesOf (mainRun d)).length = d.enumCount % 2 ^ 32 ∧
    (mainRun d).exitCode = 0 := by
  have h1 := deviceLinesOf_mainRun_success d hc hs hn
  refine ⟨h1, by rw [h1]; simp, ?_⟩
  rw [mainRun_exitCode, if_pos ⟨hc, hs, hn⟩]

/-- C7 witness: two devices yield exactly two device lines and exit 0. -/
theorem success_lists_each_device_w :
    deviceLinesOf (mainRun ⟨none, 0, 0, 2, 0,
        [⟨"A", 4198400, 5, 3⟩, ⟨"B", 4194304, 6, 70000⟩]⟩) =
      (List.range ((2 : Nat) % 2 ^ 32)).map
        (fun i => deviceLine (([⟨"A", 4198400, 5, 3⟩, ⟨"B", 4194304, 6, 70000⟩] :
          List VkPhysicalDeviceProperties).getD i default)) ∧
    (deviceLinesOf (mainRun ⟨none, 0, 0, 2, 0,
        [⟨"A", 4198400, 5, 3⟩, ⟨"B", 4194304, 6, 70000⟩]⟩)).length = (2 : Nat) % 2 ^ 32 ∧
    (mainRun ⟨none, 0, 0, 2, 0,
        [⟨"A", 4198400, 5, 3⟩, ⟨"B", 4194304, 6, 70000⟩]⟩).exitCode = 0 :=
  success_lists_each_device ⟨none, 0, 0, 2, 0,
    [⟨"A", 4198400, 5, 3⟩, ⟨"B", 4194304, 6, 70000⟩]⟩ rfl rfl (by decide)

/-- C8: two runs whose driver responses agree on the loader version, all
statuses and the count, and report the same devices possibly in a different
order, produce device listings that are permutations of each other and the
same exit code. -/
theorem deterministic_up_to_device_order (d₁ d₂ : Driver)
    (_hfn : d₁.enumerateInstanceVersionFn = d₂.enumerateInstanceVersionFn)
    (hcs : d₁.createInstanceStatus = d₂.createInstanceStatus)
    (hs1 : d₁.enumStatus1 = d₂.enumStatus1)
    (hct : d₁.enumCount = d₂.enumCount)
    (hlen : d₁.enumCount % 2 ^ 32 = d₁.deviceProps.length)
    (hperm : d₁.deviceProps.Perm d₂.deviceProps) :
    (deviceLinesOf (mainRun d₁)).Perm (deviceLinesOf (mainRun d₂)) ∧
    (mainRun d₁).exitCode = (mainRun d₂).exitCode := by
  have hexit : (mainRun d₁).exitCode = (mainRun d₂).exitCode := by
    rw [mainRun_exitCode, mainRun_exitCode, hcs, hs1, hct]
  refine ⟨?_, hexit⟩
  by_cases hok : d₁.createInstanceStatus = 0 ∧ d₁.enumStatus1 = 0 ∧ d₁.enumCount % 2 ^ 32 ≠ 0
  · obtain ⟨h1, h2, h3⟩ := hok
    rw [deviceLinesOf_mainRun_success d₁ h1 h2 h3,
      deviceLinesOf_mainRun_success d₂ (hcs ▸ h1) (hs1 ▸ h2) (hct ▸ h3)]
    have l2 : d₂.enumCount % 2 ^ 32 = d₂.deviceProps.length := by
      rw [← hct, hlen, hperm.length_eq]
    rw [hlen, l2, range_map_getD deviceLine default d₁.deviceProps,
      range_map_getD deviceLine default d₂.deviceProps]
    exact hperm.map deviceLine
  · have hok₂ : ¬(d₂.createInstanceStatus = 0 ∧ d₂.enumStatus1 = 0 ∧
        d₂.enumCount % 2 ^ 32 ≠ 0) := by
      rw [← hcs, ← hs1, ← hct]
      exact hok
    rw [deviceLinesOf_mainRun_fail d₁ hok, deviceLinesOf_mainRun_fail d₂ hok₂]

/-- C8 witness: the same two devices reported in swapped order give
permuted listings and equal exit codes. -/
theorem deterministic_up_to_device_order_w :
    (deviceLinesOf (mainRun ⟨none, 0, 0, 2, 0,
        [⟨"A", 4198400, 5, 3⟩, ⟨"B", 4194304, 6, 70000⟩]⟩)).Perm
      (deviceLinesOf (mainRun ⟨none, 0, 0, 2, 0,
        [⟨"B", 4194304, 6, 70000⟩, ⟨"A", 4198400, 5, 3⟩]⟩)) ∧
    (mainRun ⟨none, 0, 0, 2, 0,
        [⟨"A", 4198400, 5, 3⟩, ⟨"B", 4194304, 6, 70000⟩]⟩).exitCode =
      (mainRun ⟨none, 0, 0, 2, 0,
        [⟨"B", 4194304, 6, 70000⟩, ⟨"A", 4198400, 5, 3⟩]⟩).exitCode :=
  deterministic_up_to_device_order _ _ rfl rfl rfl rfl (by decide)
    (List.Perm.swap (⟨"B", 4194304, 6, 70000⟩ : VkPhysicalDeviceProperties)
      (⟨"A", 4198400, 5, 3⟩ : VkPhysicalDeviceProperties) [])

/-- C9: `ApiVersionToStr` renders any 32-bit packed value `v` as `"M.m.p"`
with `M = v >> 22`, `m = (v >> 12) mod 1024` (= `& 0x3FF`), `p = v mod 4096`
(= `& 0xFFF`); and the run with the single shared static buffer threaded
through every call coincides with the run where each call returns a fresh
string — each printed line shows the version passed to its own call, the
pointer being consumed by its enclosing print before the next overwrite. -/
theorem api_version_format_and_buffer_benign :
    (∀ v : Nat, v < 2 ^ 32 →
      ApiVersionToStr v =
        toString (v >>> 22) ++ "." ++ toString ((v >>> 12) % 1024) ++ "." ++
          toString (v % 4096)) ∧
    (∀ d : Driver, mainRunBuf d = mainRun d) := by
  constructor
  · intro v hv
    simp only [ApiVersionToStr, VK_VERSION_MAJOR, VK_VERSION_MINOR, VK_VERSION_PATCH]
    rw [Nat.mod_eq_of_lt hv,
      show (1023 : Nat) = 2 ^ 10 - 1 by norm_num,
      show (4095 : Nat) = 2 ^ 12 - 1 by norm_num,
      Nat.and_pow_two_sub_one_eq_mod, Nat.and_pow_two_sub_one_eq_mod,
      show (2 ^ 10 : Nat) = 1024 by norm_num,
      show (2 ^ 12 : Nat) = 4096 by norm_num]
  · intro d
    simp only [mainRun, mainRunBuf]
    split_ifs <;> try rfl
    rw [describeLoopBuf_fst, List.map_map]
    rfl

/-- C9 witness: the packed 1.1.0 value renders as its shift/mask fields, and
the buffer-threaded run of a one-device driver equals the pure run. -/
theorem api_version_format_and_buffer_benign_w :
    ApiVersionToStr 4198400 =
      toString (4198400 >>> 22) ++ "." ++ toString ((4198400 >>> 12) % 1024) ++ "." ++
        toString (4198400 % 4096) ∧
    mainRunBuf ⟨none, 0, 0, 1, 0, [⟨"gpu", 4198400, 1, 1⟩]⟩ =
      mainRun ⟨none, 0, 0, 1, 0, [⟨"gpu", 4198400, 1, 1⟩]⟩ :=
  ⟨api_version_format_and_buffer_benign.1 4198400 (by norm_num),
   api_version_format_and_buffer_benign.2 _⟩

/-- C10: the status of the second (buffer-filling) enumeration call is
discarded: the whole observable outcome is unchanged under any value of it,
and in particular a failing second call still yields one line per counted
device and exit code 0. -/
theorem second_enum_status_ignored (d : Driver) (s : Int) :
    mainRun { d with enumStatus2 := s } = mainRun d ∧
    (d.createInstanceStatus = 0 → d.enumStatus1 = 0 → d.enumCount % 2 ^ 32 ≠ 0 →
      (mainRun { d with enumStatus2 := s }).exitCode = 0 ∧
      (deviceLinesOf (mainRun { d with enumStatus2 := s })).length =
        d.enumCount % 2 ^ 32) := by
  have heq : mainRun { d with enumStatus2 := s } = mainRun d := by
    cases d
    rfl
  refine ⟨heq, fun hc hs hn => ?_⟩
  rw [heq]
  constructor
  · rw [mainRun_exitCode, if_pos ⟨hc, hs, hn⟩]
  · rw [deviceLinesOf_mainRun_success d hc hs hn]
    simp

/-- C10 witness: a failing second call (status -4) after a count of 1 still
exits 0 with one device line. -/
theorem second_enum_status_ignored_w :
    mainRun ⟨none, 0, 0, 1, -4, [⟨"gpu", 4198400, 1, 1⟩]⟩ =
      mainRun ⟨none, 0, 0, 1, 0, [⟨"gpu", 4198400, 1, 1⟩]⟩ ∧
    ((0 : Int) = 0 → (0 : Int) = 0 → (1 : Nat) % 2 ^ 32 ≠ 0 →
      (mainRun ⟨none, 0, 0, 1, -4, [⟨"gpu", 4198400, 1, 1⟩]⟩).exitCode = 0 ∧
      (deviceLinesOf (mainRun ⟨none, 0, 0, 1, -4,
        [⟨"gpu", 4198400, 1, 1⟩]⟩)).length = (1 : Nat) % 2 ^ 32) :=
  second_enum_status_ignored ⟨none, 0, 0, 1, 0, [⟨"gpu", 4198400, 1, 1⟩]⟩ (-4)

end QuickVulkan
